import Mathlib

/-!
Shallow embedding of the reminder service of the Snaply application
(`src/services/reminderService.ts`, entity type `src/types/reminder.ts`).

Modelling conventions:
* Timestamps (ISO-8601 strings / `Date` values in the source) are modelled
  as `Int` epoch values; the only operation the service performs on them is
  the comparison `new Date(reminder.date) <= now`.
* `AsyncStorage` is modelled as a single cell `Option (List Reminder)`
  holding the parsed collection (`none` = key never written, which
  `getReminders` reads as `[]`).  The JSON serialization layer is modelled
  separately (`encodeReminder` / `decodeReminder` below) and proved
  lossless, which justifies identifying the stored blob with the list.
* The n-th `AsyncStorage.setItem` call may throw; the environment oracle
  `persistOk` decides which write attempts succeed.  A failing write makes
  the enclosing service function throw, exactly as the `try/catch` blocks
  of the source dictate.
* Calls to the share adapters (`shareToInstagram` / `shareToWhatsApp`) and
  to the notification scheduler are recorded as events in an append-only
  trace; `Event.shareCall r` additionally marks each invocation of
  `shareReminder` itself, so that "shareNow was invoked for r" is
  observable even for a reminder with no platform flags set.
-/

structure Platforms where
  instagram : Bool
  whatsapp : Bool
  deriving DecidableEq, Repr

/-- The `Reminder` entity of `src/types/reminder.ts`.  Note: it has no
`completed` field. -/
structure Reminder where
  id : String
  title : String
  description : String
  date : Int
  photoUri : Option String
  platforms : Platforms
  createdAt : Int
  updatedAt : Int
  deriving DecidableEq, Repr

/-- Observable external effects of the service. -/
inductive Event where
  | shareCall (r : Reminder)
  | shareInsta (r : Reminder)
  | shareWA (r : Reminder)
  | cancelNotif (id : String)
  | scheduleNotif (id : String) (date : Int)
  deriving DecidableEq, Repr

/-- The reminder id an event concerns. -/
def Event.rid : Event → String
  | .shareCall r => r.id
  | .shareInsta r => r.id
  | .shareWA r => r.id
  | .cancelNotif i => i
  | .scheduleNotif i _ => i

/-- Environment oracles: per-reminder adapter outcomes and the outcome of
the n-th storage write attempt. -/
structure Env where
  instaOk : Reminder → Bool
  waOk : Reminder → Bool
  persistOk : Nat → Bool

/-- Program state: the storage cell, the number of write attempts made so
far (indexing `persistOk`), and the trace of external effects. -/
structure St where
  storage : Option (List Reminder)
  writeCount : Nat
  events : List Event
  deriving DecidableEq, Repr

/-- All storage writes succeed in this environment. -/
def allOk (env : Env) : Prop := ∀ n, env.persistOk n = true

/-- `getReminders`: parse the stored blob, `[]` when absent (errors are
swallowed with `return []` in the source). -/
def getReminders (s : St) : List Reminder := s.storage.getD []

/-- `scheduleReminderNotification`: cancels any existing notification for
the reminder's id, then schedules one at the reminder's date.  Its own
errors are swallowed, so it never throws. -/
def scheduleReminderNotification (r : Reminder) (s : St) : St :=
  { s with events := s.events ++ [Event.cancelNotif r.id, Event.scheduleNotif r.id r.date] }

/-- Parameters of `createReminder` (interface `CreateReminderParams`). -/
structure CreateReminderParams where
  title : String
  description : String
  date : Int
  photoUri : Option String
  platforms : Platforms
  deriving DecidableEq, Repr

/-- `createReminder`: builds the new reminder (fresh id `fid`,
`createdAt = updatedAt = now`), appends it to the stored collection,
persists, schedules its notification, and returns it.  A failing write
makes it throw (`none`); note there is no input validation of any kind. -/
def createReminder (env : Env) (fid : String) (now : Int)
    (params : CreateReminderParams) (s : St) : St × Option Reminder :=
  let newReminder : Reminder :=
    { id := fid, title := params.title, description := params.description,
      date := params.date, photoUri := params.photoUri,
      platforms := params.platforms, createdAt := now, updatedAt := now }
  let existingReminders := getReminders s
  let updatedReminders := existingReminders ++ [newReminder]
  if env.persistOk s.writeCount then
    (scheduleReminderNotification newReminder
      { s with storage := some updatedReminders, writeCount := s.writeCount + 1 },
     some newReminder)
  else
    ({ s with writeCount := s.writeCount + 1 }, none)

/-- A `Partial<Reminder>` patch: each field optionally present. -/
structure ReminderPatch where
  id : Option String := none
  title : Option String := none
  description : Option String := none
  date : Option Int := none
  photoUri : Option (Option String) := none
  platforms : Option Platforms := none
  createdAt : Option Int := none
  updatedAt : Option Int := none
  deriving DecidableEq, Repr

/-- The JS spread `{...stored, ...updates}`: every field present in the
patch overrides the stored value, including `id` and `createdAt`. -/
def applyPatch (r : Reminder) (u : ReminderPatch) : Reminder :=
  { id := u.id.getD r.id, title := u.title.getD r.title,
    description := u.description.getD r.description,
    date := u.date.getD r.date, photoUri := u.photoUri.getD r.photoUri,
    platforms := u.platforms.getD r.platforms,
    createdAt := u.createdAt.getD r.createdAt,
    updatedAt := u.updatedAt.getD r.updatedAt }

/-- `findIndex` + in-place replacement of the first reminder whose id
matches: returns the patched reminder (with `updatedAt := now`, which the
source writes after the spread so it always wins) and the new list, or
`none` when no reminder matches. -/
def updateList (now : Int) (id : String) (u : ReminderPatch) :
    List Reminder → Option (Reminder × List Reminder)
  | [] => none
  | r :: rest =>
    if r.id == id then
      let upd := { applyPatch r u with updatedAt := now }
      some (upd, upd :: rest)
    else
      match updateList now id u rest with
      | none => none
      | some (upd, rest2) => some (upd, r :: rest2)

/-- Result of `updateReminder`: resolved with `null`, resolved with the
updated reminder, or threw `'Failed to update reminder'`. -/
inductive UpdateResult where
  | notFound
  | updated (r : Reminder)
  | threw
  deriving DecidableEq, Repr

/-- `updateReminder`: merge the patch into the first stored reminder with
the given id (returning `null` if none), persist, and reschedule the
notification exactly when the patch contains a `date`. -/
def updateReminder (env : Env) (now : Int) (id : String) (u : ReminderPatch)
    (s : St) : St × UpdateResult :=
  match updateList now id u (getReminders s) with
  | none => (s, .notFound)
  | some (upd, newList) =>
    if env.persistOk s.writeCount then
      let s1 : St := { s with storage := some newList, writeCount := s.writeCount + 1 }
      let s2 := if u.date.isSome then scheduleReminderNotification upd s1 else s1
      (s2, .updated upd)
    else
      ({ s with writeCount := s.writeCount + 1 }, .threw)

/-- `deleteReminder`: filter out every reminder with the given id, persist
the filtered list, cancel the notification, return `true`.  A failing
write makes it throw (`false` flags the exception); note it succeeds even
when no reminder with that id exists. -/
def deleteReminder (env : Env) (id : String) (s : St) : St × Bool :=
  let reminders := getReminders s
  let filteredReminders := reminders.filter (fun r => r.id != id)
  if env.persistOk s.writeCount then
    ({ s with
        storage := some filteredReminders
        writeCount := s.writeCount + 1
        events := s.events ++ [Event.cancelNotif id] }, true)
  else
    ({ s with writeCount := s.writeCount + 1 }, false)

/-- The adapter calls `shareReminder` makes, paired with their outcomes:
Instagram first when flagged, then WhatsApp when flagged.  Both promises
are created before any is awaited, so every flagged target is attempted
regardless of the other's outcome. -/
def shareCalls (env : Env) (r : Reminder) : List (Event × Bool) :=
  (if r.platforms.instagram then [(Event.shareInsta r, env.instaOk r)] else []) ++
  (if r.platforms.whatsapp then [(Event.shareWA r, env.waOk r)] else [])

/-- `shareReminder`: invoke the adapter for each flagged platform and
return the single boolean `results.every(r => r === true)` (vacuously
`true` for an empty target set).  It never touches the storage cell. -/
def shareReminder (env : Env) (r : Reminder) (s : St) : St × Bool :=
  ({ s with events := s.events ++ Event.shareCall r :: (shareCalls env r).map Prod.fst },
   ((shareCalls env r).map Prod.snd).all (fun b => b))

/-- The events one `shareReminder` call appends (outcome-independent). -/
def shareEvents (r : Reminder) : List Event :=
  Event.shareCall r ::
    ((if r.platforms.instagram then [Event.shareInsta r] else []) ++
     (if r.platforms.whatsapp then [Event.shareWA r] else []))

/-- The loop body of `checkDueReminders`: iterate over the snapshot taken
at entry; for each due reminder share it (result ignored) then delete it;
a throw from `deleteReminder` is caught by the sweep's outer `catch`,
ending the sweep. -/
def sweepLoop (env : Env) (now : Int) : List Reminder → St → St
  | [], s => s
  | r :: rest, s =>
    if r.date ≤ now then
      let s1 := (shareReminder env r s).1
      let del := deleteReminder env r.id s1
      if del.2 then sweepLoop env now rest del.1 else del.1
    else
      sweepLoop env now rest s

/-- `checkDueReminders` (the due sweep): read the collection once, then
run the loop over that snapshot. -/
def checkDueReminders (env : Env) (now : Int) (s : St) : St :=
  sweepLoop env now (getReminders s) s

/-- The events a fully successful sweep over snapshot `l` appends. -/
def sweepTrace (now : Int) : List Reminder → List Event
  | [] => []
  | r :: rest =>
    (if r.date ≤ now then shareEvents r ++ [Event.cancelNotif r.id] else []) ++
      sweepTrace now rest

/-!
Serialization layer: `AsyncStorage` holds the collection as a JSON string
(`JSON.stringify` on save, `JSON.parse` on load).  We model JSON values as
a tree and the encoding of the reminder collection as in the source:
`JSON.stringify` renders each reminder as an object whose `photoUri` key
is omitted when the field is `undefined`.
-/

inductive Json where
  | null
  | bool (b : Bool)
  | num (n : Int)
  | str (s : String)
  | arr (xs : List Json)
  | obj (fields : List (String × Json))

def asStr : Json → Option String
  | .str s => some s
  | _ => none

def asNum : Json → Option Int
  | .num n => some n
  | _ => none

def asBool : Json → Option Bool
  | .bool b => some b
  | _ => none

/-- First field with the given key, if any. -/
def getField (fields : List (String × Json)) (k : String) : Option Json :=
  match fields with
  | [] => none
  | (k2, v) :: rest => if k2 == k then some v else getField rest k

def encodePlatforms (p : Platforms) : Json :=
  .obj [("instagram", .bool p.instagram), ("whatsapp", .bool p.whatsapp)]

def encodeReminder (r : Reminder) : Json :=
  .obj ([("id", .str r.id), ("title", .str r.title),
         ("description", .str r.description), ("date", .num r.date)] ++
        (match r.photoUri with
         | none => []
         | some u => [("photoUri", .str u)]) ++
        [("platforms", encodePlatforms r.platforms),
         ("createdAt", .num r.createdAt), ("updatedAt", .num r.updatedAt)])

def encodeReminders (xs : List Reminder) : Json := .arr (xs.map encodeReminder)

def decodePlatforms : Json → Option Platforms
  | .obj fs =>
    match (getField fs "instagram").bind asBool, (getField fs "whatsapp").bind asBool with
    | some i, some w => some ⟨i, w⟩
    | _, _ => none
  | _ => none

def decodeReminder : Json → Option Reminder
  | .obj fs =>
    match (getField fs "id").bind asStr, (getField fs "title").bind asStr,
          (getField fs "description").bind asStr, (getField fs "date").bind asNum,
          (getField fs "platforms").bind decodePlatforms,
          (getField fs "createdAt").bind asNum, (getField fs "updatedAt").bind asNum with
    | some i, some t, some d, some dt, some pf, some ca, some ua =>
      some { id := i, title := t, description := d, date := dt,
             photoUri := (getField fs "photoUri").bind asStr,
             platforms := pf, createdAt := ca, updatedAt := ua }
    | _, _, _, _, _, _, _ => none
  | _ => none

def decodeReminderList : List Json → Option (List Reminder)
  | [] => some []
  | j :: rest =>
    match decodeReminder j, decodeReminderList rest with
    | some r, some rs => some (r :: rs)
    | _, _ => none

def decodeReminders : Json → Option (List Reminder)
  | .arr xs => decodeReminderList xs
  | _ => none

/-! ### Helper lemmas -/

theorem shareReminder_fst (env : Env) (r : Reminder) (s : St) :
    (shareReminder env r s).1 = { s with events := s.events ++ shareEvents r } := by
  cases hI : r.platforms.instagram <;> cases hW : r.platforms.whatsapp <;>
    simp [shareReminder, shareEvents, shareCalls, hI, hW]

theorem sweep_due_step (env : Env) (now : Int) (r : Reminder) (rest : List Reminder)
    (s : St) (hd : r.date ≤ now) (hp : env.persistOk s.writeCount = true) :
    sweepLoop env now (r :: rest) s =
      sweepLoop env now rest
        { s with
            storage := some ((getReminders s).filter (fun x => x.id != r.id))
            writeCount := s.writeCount + 1
            events := s.events ++ (shareEvents r ++ [Event.cancelNotif r.id]) } := by
  simp only [sweepLoop, hd, if_true, shareReminder_fst, deleteReminder, getReminders, hp]
  simp [List.append_assoc]

theorem sweep_due_fail (env : Env) (now : Int) (r : Reminder) (rest : List Reminder)
    (s : St) (hd : r.date ≤ now) (hp : env.persistOk s.writeCount = false) :
    sweepLoop env now (r :: rest) s =
      { s with
          writeCount := s.writeCount + 1
          events := s.events ++ shareEvents r } := by
  simp only [sweepLoop, hd, if_true, shareReminder_fst, deleteReminder, getReminders, hp]
  simp

theorem sweep_skip (env : Env) (now : Int) (r : Reminder) (rest : List Reminder)
    (s : St) (hd : ¬ r.date ≤ now) :
    sweepLoop env now (r :: rest) s = sweepLoop env now rest s := by
  simp [sweepLoop, hd]

theorem sweepLoop_allOk_events (env : Env) (now : Int) (h : allOk env)
    (l : List Reminder) : ∀ s : St,
    (sweepLoop env now l s).events = s.events ++ sweepTrace now l := by
  induction l with
  | nil => intro s; simp [sweepLoop, sweepTrace]
  | cons r rest ih =>
    intro s
    by_cases hd : r.date ≤ now
    · rw [sweep_due_step env now r rest s hd (h _), ih]
      simp [sweepTrace, hd, List.append_assoc]
    · rw [sweep_skip env now r rest s hd, ih]
      simp [sweepTrace, hd]

theorem sweepLoop_allOk_mem (env : Env) (now : Int) (h : allOk env)
    (l : List Reminder) : ∀ (s : St) (x : Reminder),
    x ∈ getReminders (sweepLoop env now l s) →
      x ∈ getReminders s ∧ ∀ r ∈ l, r.date ≤ now → x.id ≠ r.id := by
  induction l with
  | nil =>
    intro s x hx
    refine ⟨by simpa [sweepLoop] using hx, ?_⟩
    intro q hq
    exact absurd hq (List.not_mem_nil q)
  | cons r rest ih =>
    intro s x hx
    by_cases hd : r.date ≤ now
    · rw [sweep_due_step env now r rest s hd (h _)] at hx
      obtain ⟨hx1, hx2⟩ := ih _ x hx
      have hx1' : x ∈ (getReminders s).filter (fun y => y.id != r.id) := by
        simpa [getReminders] using hx1
      have hmem := (List.mem_filter.mp hx1').1
      have hne : x.id ≠ r.id := by
        have := (List.mem_filter.mp hx1').2
        simpa using this
      refine ⟨hmem, ?_⟩
      intro q hq hqd
      rcases List.mem_cons.mp hq with rfl | hq'
      · exact hne
      · exact hx2 q hq' hqd
    · rw [sweep_skip env now r rest s hd] at hx
      obtain ⟨hx1, hx2⟩ := ih _ x hx
      refine ⟨hx1, ?_⟩
      intro q hq hqd
      rcases List.mem_cons.mp hq with rfl | hq'
      · exact absurd hqd hd
      · exact hx2 q hq' hqd

theorem sweepLoop_no_due (env : Env) (now : Int) :
    ∀ (l : List Reminder), (∀ r ∈ l, ¬ r.date ≤ now) → ∀ s : St,
      sweepLoop env now l s = s
  | [], _, s => by simp [sweepLoop]
  | r :: rest, hl, s => by
    rw [sweep_skip env now r rest s (hl r (List.mem_cons_self r rest))]
    exact sweepLoop_no_due env now rest (fun q hq => hl q (List.mem_cons_of_mem r hq)) s

theorem mem_sweepTrace_shareCall (now : Int) :
    ∀ (l : List Reminder) (r : Reminder), r ∈ l → r.date ≤ now →
      Event.shareCall r ∈ sweepTrace now l
  | [], r, hr, _ => absurd hr (List.not_mem_nil r)
  | q :: rest, r, hr, hd => by
    rcases List.mem_cons.mp hr with rfl | hr'
    · simp [sweepTrace, hd, shareEvents]
    · have := mem_sweepTrace_shareCall now rest r hr' hd
      simp only [sweepTrace, List.mem_append]
      exact Or.inr this

theorem rid_of_mem_shareEvents (r : Reminder) : ∀ e ∈ shareEvents r, e.rid = r.id := by
  intro e he
  have : e = Event.shareCall r ∨ e = Event.shareInsta r ∨ e = Event.shareWA r := by
    simp only [shareEvents, List.mem_cons, List.mem_append] at he
    rcases he with rfl | h | h
    · exact Or.inl rfl
    · right; left; revert h; split <;> simp
    · right; right; revert h; split <;> simp
  rcases this with rfl | rfl | rfl <;> rfl

theorem sweepLoop_events_cases (env : Env) (now : Int) :
    ∀ (l : List Reminder) (s : St) (e : Event),
      e ∈ (sweepLoop env now l s).events →
      e ∈ s.events ∨ ∃ r, r ∈ l ∧ e.rid = r.id
  | [], _, e, he => Or.inl (by simpa [sweepLoop] using he)
  | r :: rest, s, e, he => by
    by_cases hd : r.date ≤ now
    · by_cases hp : env.persistOk s.writeCount = true
      · rw [sweep_due_step env now r rest s hd hp] at he
        rcases sweepLoop_events_cases env now rest _ e he with h | ⟨q, hq, hrid⟩
        · simp only [List.mem_append, List.mem_singleton] at h
          rcases h with h | h | rfl
          · exact Or.inl h
          · exact Or.inr ⟨r, List.mem_cons_self r rest, rid_of_mem_shareEvents r e h⟩
          · exact Or.inr ⟨r, List.mem_cons_self r rest, rfl⟩
        · exact Or.inr ⟨q, List.mem_cons_of_mem r hq, hrid⟩
      · have hp' : env.persistOk s.writeCount = false := by simpa using hp
        rw [sweep_due_fail env now r rest s hd hp'] at he
        simp only [List.mem_append] at he
        rcases he with h | h
        · exact Or.inl h
        · exact Or.inr ⟨r, List.mem_cons_self r rest, rid_of_mem_shareEvents r e h⟩
    · rw [sweep_skip env now r rest s hd] at he
      rcases sweepLoop_events_cases env now rest s e he with h | ⟨q, hq, hrid⟩
      · exact Or.inl h
      · exact Or.inr ⟨q, List.mem_cons_of_mem r hq, hrid⟩

theorem updateList_not_found (now : Int) (id : String) (u : ReminderPatch) :
    ∀ l : List Reminder, (∀ x ∈ l, x.id ≠ id) → updateList now id u l = none
  | [], _ => rfl
  | r :: rest, hl => by
    have hr : r.id ≠ id := hl r (List.mem_cons_self r rest)
    simp only [updateList]
    rw [if_neg (by simpa using hr),
        updateList_not_found now id u rest (fun x hx => hl x (List.mem_cons_of_mem r hx))]

theorem updateList_found (now : Int) (idq : String) (u : ReminderPatch) :
    ∀ (l l2 : List Reminder) (upd : Reminder),
      updateList now idq u l = some (upd, l2) →
      ∃ old, old ∈ l ∧ old.id = idq ∧
        upd = { applyPatch old u with updatedAt := now }
  | [], l2, upd, h => by simp [updateList] at h
  | r :: rest, l2, upd, h => by
    by_cases hid : (r.id == idq) = true
    · refine ⟨r, List.mem_cons_self r rest, by simpa using hid, ?_⟩
      simp only [updateList, if_pos hid, Option.some.injEq, Prod.mk.injEq] at h
      exact h.1.symm
    · simp only [updateList, if_neg hid] at h
      cases hrec : updateList now idq u rest with
      | none => rw [hrec] at h; simp at h
      | some p =>
        obtain ⟨upd2, rest2⟩ := p
        rw [hrec] at h
        simp only [Option.some.injEq, Prod.mk.injEq] at h
        obtain ⟨old, ho, hoid, hupd⟩ := updateList_found now idq u rest rest2 upd2 hrec
        exact ⟨old, List.mem_cons_of_mem r ho, hoid, h.1 ▸ hupd⟩

theorem filter_ne_id_eq_self (id : String) :
    ∀ l : List Reminder, (∀ x ∈ l, x.id ≠ id) →
      l.filter (fun r => r.id != id) = l
  | [], _ => rfl
  | r :: rest, hl => by
    have hr : (r.id != id) = true := by
      simpa using hl r (List.mem_cons_self r rest)
    simp [List.filter_cons, hr,
          filter_ne_id_eq_self id rest (fun x hx => hl x (List.mem_cons_of_mem r hx))]

theorem decodeReminder_encodeReminder (r : Reminder) :
    decodeReminder (encodeReminder r) = some r := by
  obtain ⟨i, t, d, dt, pu, ⟨pi, pw⟩, ca, ua⟩ := r
  cases pu <;> rfl

theorem decodeReminderList_encode (xs : List Reminder) :
    decodeReminderList (xs.map encodeReminder) = some xs := by
  induction xs with
  | nil => rfl
  | cons r rest ih =>
    simp [decodeReminderList, decodeReminder_encodeReminder, ih]

theorem sweepLoop_append_skip (env : Env) (now : Int) :
    ∀ l1 : List Reminder, (∀ x ∈ l1, ¬ x.date ≤ now) →
      ∀ (l2 : List Reminder) (s : St),
        sweepLoop env now (l1 ++ l2) s = sweepLoop env now l2 s
  | [], _, _, _ => rfl
  | q :: rest, hl, l2, s => by
    rw [List.cons_append, sweep_skip env now q _ s (hl q (List.mem_cons_self q rest))]
    exact sweepLoop_append_skip env now rest
      (fun x hx => hl x (List.mem_cons_of_mem q hx)) l2 s

theorem updateList_split (now : Int) (idq : String) (u : ReminderPatch) :
    ∀ (l1 : List Reminder) (old : Reminder) (l2 : List Reminder),
      (∀ x ∈ l1, x.id ≠ idq) → old.id = idq →
      updateList now idq u (l1 ++ old :: l2) =
        some ({ applyPatch old u with updatedAt := now },
              l1 ++ { applyPatch old u with updatedAt := now } :: l2)
  | [], old, l2, _, hoid => by
    simp [updateList, hoid]
  | q :: rest, old, l2, hl, hoid => by
    have hq : ¬ (q.id == idq) = true := by
      simpa using hl q (List.mem_cons_self q rest)
    simp only [List.cons_append, updateList, if_neg hq, List.append_eq,
      updateList_split now idq u rest old l2
        (fun x hx => hl x (List.mem_cons_of_mem q hx)) hoid]

/-! ### Concrete fixtures used by counterexamples and witnesses -/

/-- Environment in which every adapter call and every storage write
succeeds. -/
def envAll : Env :=
  { instaOk := fun _ => true, waOk := fun _ => true, persistOk := fun _ => true }

/-- Environment in which only the first storage write attempt fails. -/
def envFail0 : Env :=
  { instaOk := fun _ => true, waOk := fun _ => true, persistOk := fun n => n != 0 }

/-- Environment in which every storage write attempt fails. -/
def envNoPersist : Env :=
  { instaOk := fun _ => true, waOk := fun _ => true, persistOk := fun _ => false }

/-- Environment in which the Instagram share fails and the WhatsApp share
succeeds. -/
def envInstaFails : Env :=
  { instaOk := fun _ => false, waOk := fun _ => true, persistOk := fun _ => true }

/-- Environment in which the Instagram share succeeds and the WhatsApp
share fails. -/
def envWaFails : Env :=
  { instaOk := fun _ => true, waOk := fun _ => false, persistOk := fun _ => true }

def r1 : Reminder :=
  { id := "1", title := "a", description := "", date := 0, photoUri := none,
    platforms := ⟨false, false⟩, createdAt := 0, updatedAt := 0 }

def r2 : Reminder :=
  { id := "2", title := "b", description := "", date := 0, photoUri := none,
    platforms := ⟨false, false⟩, createdAt := 0, updatedAt := 0 }

/-- A reminder targeting both platforms. -/
def rBoth : Reminder :=
  { id := "b", title := "t", description := "", date := 0, photoUri := none,
    platforms := ⟨true, true⟩, createdAt := 0, updatedAt := 0 }

/-- A stored reminder with id `"a"` and `createdAt = 5`. -/
def rA : Reminder :=
  { id := "a", title := "t", description := "", date := 0, photoUri := none,
    platforms := ⟨false, false⟩, createdAt := 5, updatedAt := 0 }

/-- Fresh state: nothing ever stored. -/
def st0 : St := { storage := none, writeCount := 0, events := [] }

/-- State storing exactly `r1`. -/
def st1 : St := { storage := some [r1], writeCount := 0, events := [] }

/-- State storing `r1` then `r2`. -/
def st12 : St := { storage := some [r1, r2], writeCount := 0, events := [] }

/-- State storing exactly `rA`. -/
def stA : St := { storage := some [rA], writeCount := 0, events := [] }

/-- Creation input with an empty title. -/
def emptyTitleParams : CreateReminderParams :=
  { title := "", description := "d", date := 5, photoUri := none,
    platforms := ⟨true, false⟩ }

/-- A patch that tries to change `id` and `createdAt`. -/
def patchIdCreated : ReminderPatch := { id := some "b", createdAt := some 99 }

/-- What `rA` becomes under `patchIdCreated` at `now = 7`: both `id` and
`createdAt` overwritten by the patch. -/
def rB99 : Reminder :=
  { id := "b", title := "t", description := "", date := 0, photoUri := none,
    platforms := ⟨false, false⟩, createdAt := 99, updatedAt := 7 }

/-- A patch that only changes `title`. -/
def patchTitle : ReminderPatch := { title := some "new" }

/-! ### Claims -/

/-- C1, counterexample: with a single due reminder (`r1`, due at `now = 0`)
and all writes succeeding, the sweep shares the reminder but then deletes
it from the store; afterwards no reminder remains at all, so the due
reminder does not "remain in the store, marked completed" as claimed
(indeed `Reminder` has no completed flag). -/
theorem c1_counterexample :
    Event.shareCall r1 ∈ (checkDueReminders envAll 0 st1).events ∧
    r1 ∉ getReminders (checkDueReminders envAll 0 st1) ∧
    getReminders (checkDueReminders envAll 0 st1) = [] := by decide

/-- C1 (amended): for every stored reminder with `scheduledAt <= now`,
`dueSweep(now)` invokes `shareNow` for that reminder and then deletes it
from the store — it does not remain, and no completed flag exists —
regardless of whether every per-target share succeeded (the adapter
outcome oracles are arbitrary), provided persistence succeeds. -/
theorem c1_due_reminder_shared_then_deleted (env : Env) (now : Int) (s : St)
    (r : Reminder) (hok : allOk env) (hr : r ∈ getReminders s)
    (hd : r.date ≤ now) :
    Event.shareCall r ∈ (checkDueReminders env now s).events ∧
    ∀ x ∈ getReminders (checkDueReminders env now s), x.id ≠ r.id := by
  constructor
  · rw [checkDueReminders, sweepLoop_allOk_events env now hok]
    exact List.mem_append_right _ (mem_sweepTrace_shareCall now _ r hr hd)
  · intro x hx
    obtain ⟨_, h2⟩ :=
      sweepLoop_allOk_mem env now hok (getReminders s) s x
        (by simpa [checkDueReminders] using hx)
    exact h2 r hr hd

/-- C1 witness: the amended theorem applied to the concrete due reminder
`r1` in store `st1` under the all-success environment. -/
theorem c1_witness :
    Event.shareCall r1 ∈ (checkDueReminders envAll 0 st1).events ∧
    getReminders (checkDueReminders envAll 0 st1) = [] :=
  ⟨(c1_due_reminder_shared_then_deleted envAll 0 st1 r1 (fun _ => rfl)
      (by decide) (by decide)).1,
   by decide⟩

/-- C2, counterexample: after two sweeps of the store holding the due
reminder `r1`, the reminder is not left with `completed == true` — it does
not exist in the store at all (the entity has no completed flag and the
sweep deletes processed reminders). -/
theorem c2_counterexample :
    getReminders (checkDueReminders envAll 0 (checkDueReminders envAll 0 st1)) = [] ∧
    (checkDueReminders envAll 0 (checkDueReminders envAll 0 st1)).events =
      [Event.shareCall r1, Event.cancelNotif "1"] := by decide

/-- C2 (amended): when every write succeeds, `dueSweep(now)` is idempotent
— the second call is a complete no-op (it shares nothing because every due
reminder was already deleted by the first call), and after the first call
no due reminder remains in the store. -/
theorem c2_sweep_idempotent (env : Env) (now : Int) (s : St) (hok : allOk env) :
    checkDueReminders env now (checkDueReminders env now s) =
      checkDueReminders env now s ∧
    ∀ x ∈ getReminders (checkDueReminders env now s), ¬ x.date ≤ now := by
  have hnodue : ∀ x ∈ getReminders (checkDueReminders env now s), ¬ x.date ≤ now := by
    intro x hx hxd
    obtain ⟨hmem, h2⟩ :=
      sweepLoop_allOk_mem env now hok (getReminders s) s x
        (by simpa [checkDueReminders] using hx)
    exact h2 x hmem hxd rfl
  exact ⟨sweepLoop_no_due env now _ hnodue _, hnodue⟩

/-- C2 witness: idempotence of the sweep at the concrete store `st1`. -/
theorem c2_witness :
    checkDueReminders envAll 0 (checkDueReminders envAll 0 st1) =
      checkDueReminders envAll 0 st1 :=
  (c2_sweep_idempotent envAll 0 st1 (fun _ => rfl)).1

/-- C3, counterexample: with two due reminders `r1, r2` and persistence
failing, the sweep shares `r1`, the deletion of `r1` throws, and the sweep
stops — `r2` is never attempted, contradicting per-reminder isolation. -/
theorem c3_counterexample :
    (checkDueReminders envNoPersist 0 st12).events = [Event.shareCall r1] ∧
    Event.shareCall r2 ∉ (checkDueReminders envNoPersist 0 st12).events ∧
    getReminders (checkDueReminders envNoPersist 0 st12) = [r1, r2] := by decide

/-- C3 (amended): the sweep does not isolate per-reminder failures — when
persisting the deletion of the first due reminder `r` in the snapshot
throws, the sweep's outer catch ends the pass: reminders after `r` are not
attempted, and the final state records only `r`'s share attempt. -/
theorem c3_sweep_aborts_on_persist_failure (env : Env) (now : Int) (s : St)
    (l1 l2 : List Reminder) (r : Reminder)
    (hsnap : getReminders s = l1 ++ r :: l2)
    (h1 : ∀ x ∈ l1, ¬ x.date ≤ now)
    (hd : r.date ≤ now)
    (hp : env.persistOk s.writeCount = false) :
    checkDueReminders env now s =
      { s with
          writeCount := s.writeCount + 1
          events := s.events ++ shareEvents r } := by
  rw [checkDueReminders, hsnap, sweepLoop_append_skip env now l1 h1 (r :: l2) s,
      sweep_due_fail env now r l2 s hd hp]

/-- C3 witness: the amended theorem at the concrete two-reminder store
`st12` with persistence always failing. -/
theorem c3_witness :
    checkDueReminders envNoPersist 0 st12 =
      { st12 with
          writeCount := st12.writeCount + 1
          events := st12.events ++ shareEvents r1 } :=
  c3_sweep_aborts_on_persist_failure envNoPersist 0 st12 [] [r2] r1 (by decide)
    (fun x hx => absurd hx (List.not_mem_nil x)) (by decide) rfl

/-- C4, counterexample: a reminder the sweep has already processed (shared
— the code's only completion analogue, deletion, failed to persist) is
shared again by the next sweep: after two sweeps the trace holds two share
calls for `r1`.  There is no completed flag making processing terminal. -/
theorem c4_counterexample :
    (checkDueReminders envFail0 0 (checkDueReminders envFail0 0 st1)).events =
      [Event.shareCall r1, Event.shareCall r1, Event.cancelNotif "1"] := by decide

/-- C4 (amended): deletion, not completion, is terminal — for an id absent
from the store, the sweep emits no event concerning that id, and
`update(id, patch)` returns null (no merge, no rescheduling, no state
change). -/
theorem c4_absent_id_never_touched (env : Env) (now : Int) (s : St)
    (id : String) (u : ReminderPatch)
    (hid : ∀ x ∈ getReminders s, x.id ≠ id) :
    (∀ e ∈ (checkDueReminders env now s).events, e ∈ s.events ∨ e.rid ≠ id) ∧
    updateReminder env now id u s = (s, UpdateResult.notFound) := by
  constructor
  · intro e he
    rcases sweepLoop_events_cases env now (getReminders s) s e
        (by simpa [checkDueReminders] using he) with h | ⟨q, hq, hrid⟩
    · exact Or.inl h
    · exact Or.inr (by rw [hrid]; exact hid q hq)
  · rw [updateReminder, updateList_not_found now id u (getReminders s) hid]

/-- C4 witness: the amended theorem at the concrete store `st1` and the
absent id `"9"`. -/
theorem c4_witness :
    updateReminder envAll 0 "9" {} st1 = (st1, UpdateResult.notFound) :=
  (c4_absent_id_never_touched envAll 0 st1 "9" {} (by decide)).2

/-- C5, counterexample: on the empty store, `update` of the absent id
`"9"` resolves normally with null (`notFound`, not a thrown
`NotFoundError` — the model marks a throw as `threw`), and `delete` of the
absent id succeeds, returning `true` after rewriting the collection and
canceling the notification. -/
theorem c5_counterexample :
    updateReminder envAll 0 "9" {} st0 = (st0, UpdateResult.notFound) ∧
    deleteReminder envAll "9" st0 =
      ({ storage := some [], writeCount := 1,
         events := [Event.cancelNotif "9"] }, true) := by decide

/-- C5 (amended): for an id no stored reminder has, `update` returns null
without modifying any state, and `delete` succeeds (returns `true`),
persisting the unchanged collection and canceling the notification —
neither operation fails with `NotFoundError` (no such error exists in the
code). -/
theorem c5_missing_id_update_null_delete_true (env : Env) (now : Int) (s : St)
    (id : String) (u : ReminderPatch)
    (hid : ∀ x ∈ getReminders s, x.id ≠ id)
    (hp : env.persistOk s.writeCount = true) :
    updateReminder env now id u s = (s, UpdateResult.notFound) ∧
    deleteReminder env id s =
      ({ s with
          storage := some (getReminders s)
          writeCount := s.writeCount + 1
          events := s.events ++ [Event.cancelNotif id] }, true) := by
  constructor
  · rw [updateReminder, updateList_not_found now id u (getReminders s) hid]
  · simp only [deleteReminder, hp, if_true,
      filter_ne_id_eq_self id (getReminders s) hid]

/-- C5 witness: the amended theorem on the empty store and absent id
`"9"`. -/
theorem c5_witness :
    updateReminder envAll 0 "9" {} st0 = (st0, UpdateResult.notFound) ∧
    deleteReminder envAll "9" st0 =
      ({ st0 with
          storage := some (getReminders st0)
          writeCount := st0.writeCount + 1
          events := st0.events ++ [Event.cancelNotif "9"] }, true) :=
  c5_missing_id_update_null_delete_true envAll 0 st0 "9" {} (by decide) rfl

/-- C6, counterexample: `create` performs no title validation — with the
empty title of `emptyTitleParams` the call succeeds, returns the new
reminder, and persists it; nothing fails with `ValidationError` (no such
error exists in the code). -/
theorem c6_counterexample :
    (createReminder envAll "7" 3 emptyTitleParams st0).2 =
      some { id := "7", title := "", description := "d", date := 5,
             photoUri := none, platforms := ⟨true, false⟩,
             createdAt := 3, updatedAt := 3 } ∧
    getReminders (createReminder envAll "7" 3 emptyTitleParams st0).1 =
      [{ id := "7", title := "", description := "d", date := 5,
         photoUri := none, platforms := ⟨true, false⟩,
         createdAt := 3, updatedAt := 3 }] := by decide

/-- C6 (amended): `create` validates nothing — for every input, empty
title included, the reminder built from the input is returned and appended
to the stored collection, provided the storage write succeeds. -/
theorem c6_create_no_validation (env : Env) (fid : String) (now : Int)
    (params : CreateReminderParams) (s : St)
    (hp : env.persistOk s.writeCount = true) :
    (createReminder env fid now params s).2 =
      some { id := fid, title := params.title, description := params.description,
             date := params.date, photoUri := params.photoUri,
             platforms := params.platforms, createdAt := now, updatedAt := now } ∧
    getReminders (createReminder env fid now params s).1 =
      getReminders s ++
        [{ id := fid, title := params.title, description := params.description,
           date := params.date, photoUri := params.photoUri,
           platforms := params.platforms, createdAt := now, updatedAt := now }] := by
  simp [createReminder, hp, scheduleReminderNotification, getReminders]

/-- C6 witness: the amended theorem at the concrete empty-title input. -/
theorem c6_witness :
    (createReminder envAll "7" 3 emptyTitleParams st0).2 =
      some { id := "7", title := emptyTitleParams.title,
             description := emptyTitleParams.description,
             date := emptyTitleParams.date, photoUri := emptyTitleParams.photoUri,
             platforms := emptyTitleParams.platforms,
             createdAt := 3, updatedAt := 3 } ∧
    getReminders (createReminder envAll "7" 3 emptyTitleParams st0).1 =
      getReminders st0 ++
        [{ id := "7", title := emptyTitleParams.title,
           description := emptyTitleParams.description,
           date := emptyTitleParams.date, photoUri := emptyTitleParams.photoUri,
           platforms := emptyTitleParams.platforms,
           createdAt := 3, updatedAt := 3 }] :=
  c6_create_no_validation envAll "7" 3 emptyTitleParams st0 rfl

/-- C7, counterexample: `shareReminder` does not return a per-target
outcome map — with both targets flagged, the run where Instagram fails and
WhatsApp succeeds is observationally identical (same state, same single
boolean `false`) to the run where Instagram succeeds and WhatsApp fails,
although the per-target outcomes differ. -/
theorem c7_counterexample :
    shareReminder envInstaFails rBoth st0 = shareReminder envWaFails rBoth st0 ∧
    envInstaFails.instaOk rBoth ≠ envWaFails.instaOk rBoth ∧
    (shareReminder envInstaFails rBoth st0).2 = false := by decide

/-- C7 (amended): `shareReminder` attempts every flagged target regardless
of the other targets' outcomes (the appended trace `shareEvents r` is
outcome-independent and contains each flagged target's adapter call),
never mutates the storage cell, and returns a single boolean that is the
conjunction of the attempted shares' outcomes (not a per-target map). -/
theorem c7_share_all_targets_single_bool (env : Env) (r : Reminder) (s : St) :
    shareReminder env r s =
      ({ s with events := s.events ++ shareEvents r },
       ((shareCalls env r).map Prod.snd).all (fun b => b)) := by
  cases hI : r.platforms.instagram <;> cases hW : r.platforms.whatsapp <;>
    simp [shareReminder, shareEvents, shareCalls, hI, hW]

/-- C8, counterexample: `update` does not protect `id` and `createdAt` —
patching the stored reminder `rA` (id `"a"`, createdAt 5) with
`patchIdCreated` overwrites both: the stored reminder now has id `"b"` and
createdAt 99. -/
theorem c8_counterexample :
    updateReminder envAll 7 "a" patchIdCreated stA =
      ({ storage := some [rB99], writeCount := 1, events := [] },
       UpdateResult.updated rB99) := by decide

/-- C8 (amended): the spread applies every field present in the patch, so
`id` and `createdAt` survive an update only when the patch does not
contain them: if the patch has no `id` and no `createdAt`, the updated
reminder keeps the stored reminder's `id` and `createdAt` (and the update
resolves with exactly the patched reminder, `updatedAt` set by the
engine). -/
theorem c8_patch_free_fields_preserved (env : Env) (now : Int) (idq : String)
    (u : ReminderPatch) (s : St) (l1 l2 : List Reminder) (old : Reminder)
    (hsnap : getReminders s = l1 ++ old :: l2)
    (h1 : ∀ x ∈ l1, x.id ≠ idq) (hoid : old.id = idq)
    (hid : u.id = none) (hca : u.createdAt = none)
    (hp : env.persistOk s.writeCount = true) :
    (updateReminder env now idq u s).2 =
      UpdateResult.updated { applyPatch old u with updatedAt := now } ∧
    ({ applyPatch old u with updatedAt := now } : Reminder).id = old.id ∧
    ({ applyPatch old u with updatedAt := now } : Reminder).createdAt =
      old.createdAt := by
  refine ⟨?_, by simp [applyPatch, hid], by simp [applyPatch, hca]⟩
  rw [updateReminder, hsnap, updateList_split now idq u l1 old l2 h1 hoid]
  simp [hp]

/-- C8 witness: the amended theorem at the stored reminder `rA` and the
title-only patch `patchTitle`. -/
theorem c8_witness :
    (updateReminder envAll 7 "a" patchTitle stA).2 =
      UpdateResult.updated { applyPatch rA patchTitle with updatedAt := 7 } ∧
    ({ applyPatch rA patchTitle with updatedAt := 7 } : Reminder).id = rA.id ∧
    ({ applyPatch rA patchTitle with updatedAt := 7 } : Reminder).createdAt =
      rA.createdAt :=
  c8_patch_free_fields_preserved envAll 7 "a" patchTitle stA [] [] rA (by decide)
    (fun x hx => absurd hx (List.not_mem_nil x)) rfl rfl rfl rfl

/-- C9: round-trip — decoding the JSON encoding of any reminder collection
yields exactly that collection (`load(save(X)) == X`). -/
theorem c9_store_roundtrip (xs : List Reminder) :
    decodeReminders (encodeReminders xs) = some xs := by
  simp [decodeReminders, encodeReminders, decodeReminderList_encode]

/-- C10: a reminder with both platform flags false is shared vacuously —
`shareReminder` invokes no share adapter (the only event is the call
marker itself) and returns `true`. -/
theorem c10_no_targets_vacuous_success (env : Env) (r : Reminder) (s : St)
    (hI : r.platforms.instagram = false) (hW : r.platforms.whatsapp = false) :
    shareReminder env r s =
      ({ s with events := s.events ++ [Event.shareCall r] }, true) := by
  simp [shareReminder, shareCalls, hI, hW]

/-- C10 witness: the theorem at the concrete zero-target reminder `r1`. -/
theorem c10_witness :
    shareReminder envAll r1 st0 =
      ({ st0 with events := st0.events ++ [Event.shareCall r1] }, true) :=
  c10_no_targets_vacuous_success envAll r1 st0 rfl rfl
